import Mathlib

/-!
Verification development for the client media-session quality monitor.
The definitions below are shallow embeddings of the monitor and detector
code: numeric fields of the source become rationals, optional fields
become `Option`, and each stateful method becomes a function from the
old state (and the method input) to the new state together with the
observable events of the call.
-/

namespace ClientObserver

/-- JS truthiness of an optional numeric value: an absent value and 0 are falsy. -/
def truthy : Option ℚ → Bool
  | none => false
  | some v => v != 0

/-- JS nullish coalescing `a ?? b` on optional numeric values. -/
def jsCoalesce (a b : Option ℚ) : Option ℚ :=
  match a with
  | some v => some v
  | none => b

/-- Flat absolute-value record of an ice transport stats entry
(schema `IceTransportStats`).  The opaque `attachments`/`appData`
records are not modelled. -/
structure IceTransportStats where
  id : String
  timestamp : ℚ
  packetsSent : Option ℚ
  packetsReceived : Option ℚ
  bytesSent : Option ℚ
  bytesReceived : Option ℚ
  iceRole : Option String
  iceLocalUsernameFragment : Option String
  dtlsState : Option String
  iceState : Option String
  selectedCandidatePairId : Option String
  localCertificateId : Option String
  remoteCertificateId : Option String
  tlsVersion : Option String
  dtlsCipher : Option String
  dtlsRole : Option String
  srtpCipher : Option String
  selectedCandidatePairChanges : Option ℚ
  deriving DecidableEq

/-- State of an `IceTransportMonitor` entry: the absolute-value fields,
the delta and rate fields recomputed on update, and the `_visited` flag. -/
structure IceTransportMonitor where
  _visited : Bool
  id : String
  timestamp : ℚ
  packetsSent : Option ℚ
  packetsReceived : Option ℚ
  bytesSent : Option ℚ
  bytesReceived : Option ℚ
  iceRole : Option String
  iceLocalUsernameFragment : Option String
  dtlsState : Option String
  iceState : Option String
  selectedCandidatePairId : Option String
  localCertificateId : Option String
  remoteCertificateId : Option String
  tlsVersion : Option String
  dtlsCipher : Option String
  dtlsRole : Option String
  srtpCipher : Option String
  selectedCandidatePairChanges : Option ℚ
  deltaPacketsSent : Option ℚ
  deltaPacketsReceived : Option ℚ
  deltaBytesSent : Option ℚ
  deltaBytesReceived : Option ℚ
  sendingBitrate : Option ℚ
  receivingBitrate : Option ℚ
  deriving DecidableEq

namespace IceTransportMonitor

/-- Constructor of `IceTransportMonitor`: `_visited` is initialized to
`true`, `id` and `timestamp` are set and then `Object.assign(this, options)`
copies every stats field; the delta fields start absent. -/
def create (options : IceTransportStats) : IceTransportMonitor where
  _visited := true
  id := options.id
  timestamp := options.timestamp
  packetsSent := options.packetsSent
  packetsReceived := options.packetsReceived
  bytesSent := options.bytesSent
  bytesReceived := options.bytesReceived
  iceRole := options.iceRole
  iceLocalUsernameFragment := options.iceLocalUsernameFragment
  dtlsState := options.dtlsState
  iceState := options.iceState
  selectedCandidatePairId := options.selectedCandidatePairId
  localCertificateId := options.localCertificateId
  remoteCertificateId := options.remoteCertificateId
  tlsVersion := options.tlsVersion
  dtlsCipher := options.dtlsCipher
  dtlsRole := options.dtlsRole
  srtpCipher := options.srtpCipher
  selectedCandidatePairChanges := options.selectedCandidatePairChanges
  deltaPacketsSent := none
  deltaPacketsReceived := none
  deltaBytesSent := none
  deltaBytesReceived := none
  sendingBitrate := none
  receivingBitrate := none

/-- The `accept` method of `IceTransportMonitor`.  It sets `_visited`,
returns early when the elapsed time is non-positive, otherwise computes
each delta (and byte rate) when both the stored and the incoming counter
are truthy, and finally `Object.assign(this, stats)` overwrites the
absolute fields.  The four source `if` blocks write pairwise disjoint
delta/rate fields and read only the untouched counter fields, so they
are rendered as independent conditionals of one structure update. -/
def accept (m : IceTransportMonitor) (stats : IceTransportStats) : IceTransportMonitor :=
  if stats.timestamp - m.timestamp ≤ 0 then
    { m with _visited := true }
  else
    { _visited := true
      id := stats.id
      timestamp := stats.timestamp
      packetsSent := stats.packetsSent
      packetsReceived := stats.packetsReceived
      bytesSent := stats.bytesSent
      bytesReceived := stats.bytesReceived
      iceRole := stats.iceRole
      iceLocalUsernameFragment := stats.iceLocalUsernameFragment
      dtlsState := stats.dtlsState
      iceState := stats.iceState
      selectedCandidatePairId := stats.selectedCandidatePairId
      localCertificateId := stats.localCertificateId
      remoteCertificateId := stats.remoteCertificateId
      tlsVersion := stats.tlsVersion
      dtlsCipher := stats.dtlsCipher
      dtlsRole := stats.dtlsRole
      srtpCipher := stats.srtpCipher
      selectedCandidatePairChanges := stats.selectedCandidatePairChanges
      deltaPacketsSent :=
        if truthy m.packetsSent && truthy stats.packetsSent then
          some (stats.packetsSent.getD 0 - m.packetsSent.getD 0)
        else m.deltaPacketsSent
      deltaPacketsReceived :=
        if truthy m.packetsReceived && truthy stats.packetsReceived then
          some (stats.packetsReceived.getD 0 - m.packetsReceived.getD 0)
        else m.deltaPacketsReceived
      deltaBytesSent :=
        if truthy m.bytesSent && truthy stats.bytesSent then
          some (stats.bytesSent.getD 0 - m.bytesSent.getD 0)
        else m.deltaBytesSent
      deltaBytesReceived :=
        if truthy m.bytesReceived && truthy stats.bytesReceived then
          some (stats.bytesReceived.getD 0 - m.bytesReceived.getD 0)
        else m.deltaBytesReceived
      sendingBitrate :=
        if truthy m.bytesSent && truthy stats.bytesSent then
          some ((stats.bytesSent.getD 0 - m.bytesSent.getD 0) * 8
            / ((stats.timestamp - m.timestamp) / 1000))
        else m.sendingBitrate
      receivingBitrate :=
        if truthy m.bytesReceived && truthy stats.bytesReceived then
          some ((stats.bytesReceived.getD 0 - m.bytesReceived.getD 0) * 8
            / ((stats.timestamp - m.timestamp) / 1000))
        else m.receivingBitrate }

/-- The public `visited` getter is a destructive read: it returns the
current flag and resets `_visited` to false. -/
def readVisited (m : IceTransportMonitor) : Bool × IceTransportMonitor :=
  (m._visited, { m with _visited := false })

/-- Fold a sequence of `accept` calls over a monitor. -/
def acceptList (m : IceTransportMonitor) : List IceTransportStats → IceTransportMonitor
  | [] => m
  | s :: rest => acceptList (m.accept s) rest

end IceTransportMonitor

/-- Flat absolute-value record of an ice candidate stats entry
(schema `IceCandidateStats`); `appData` is opaque and not modelled. -/
structure IceCandidateStats where
  id : String
  timestamp : ℚ
  transportId : Option String
  address : Option String
  port : Option ℚ
  protocol : Option String
  candidateType : Option String
  priority : Option ℚ
  url : Option String
  relayProtocol : Option String
  foundation : Option String
  relatedAddress : Option String
  relatedPort : Option ℚ
  usernameFragment : Option String
  tcpType : Option String
  deriving DecidableEq

/-- State of an `IceCandidateMonitor` entry. -/
structure IceCandidateMonitor where
  _visited : Bool
  id : String
  timestamp : ℚ
  transportId : Option String
  address : Option String
  port : Option ℚ
  protocol : Option String
  candidateType : Option String
  priority : Option ℚ
  url : Option String
  relayProtocol : Option String
  foundation : Option String
  relatedAddress : Option String
  relatedPort : Option ℚ
  usernameFragment : Option String
  tcpType : Option String
  deriving DecidableEq

namespace IceCandidateMonitor

/-- Constructor of `IceCandidateMonitor`: unlike the transport monitor it
copies only `id` and `timestamp` from the options; every other field
starts absent and `_visited` starts true. -/
def create (options : IceCandidateStats) : IceCandidateMonitor where
  _visited := true
  id := options.id
  timestamp := options.timestamp
  transportId := none
  address := none
  port := none
  protocol := none
  candidateType := none
  priority := none
  url := none
  relayProtocol := none
  foundation := none
  relatedAddress := none
  relatedPort := none
  usernameFragment := none
  tcpType := none

/-- The `accept` method of `IceCandidateMonitor`: sets `_visited`, returns
early on non-positive elapsed time, otherwise `Object.assign(this, stats)`. -/
def accept (m : IceCandidateMonitor) (stats : IceCandidateStats) : IceCandidateMonitor :=
  if stats.timestamp - m.timestamp ≤ 0 then
    { m with _visited := true }
  else
    { _visited := true
      id := stats.id
      timestamp := stats.timestamp
      transportId := stats.transportId
      address := stats.address
      port := stats.port
      protocol := stats.protocol
      candidateType := stats.candidateType
      priority := stats.priority
      url := stats.url
      relayProtocol := stats.relayProtocol
      foundation := stats.foundation
      relatedAddress := stats.relatedAddress
      relatedPort := stats.relatedPort
      usernameFragment := stats.usernameFragment
      tcpType := stats.tcpType }

/-- The public `visited` getter of `IceCandidateMonitor`: destructive read. -/
def readVisited (m : IceCandidateMonitor) : Bool × IceCandidateMonitor :=
  (m._visited, { m with _visited := false })

end IceCandidateMonitor

/-- Concrete base record used to build candidate inputs of example runs. -/
def IceCandidateStats.base : IceCandidateStats where
  id := "c"
  timestamp := 0
  transportId := none
  address := none
  port := none
  protocol := none
  candidateType := none
  priority := none
  url := none
  relayProtocol := none
  foundation := none
  relatedAddress := none
  relatedPort := none
  usernameFragment := none
  tcpType := none

/-- Modelled from the spec: the entity store (`StatsStorage`, not under
src) keyed by entry id per section 4.1 — `accept(collectorId, (kind, record))`
creates a monitor on an unseen id, else delegates to the existing entry's
own update, in place and never duplicating.  Entries are held in
insertion order. -/
abbrev Store := List (String × IceTransportMonitor)

/-- Whether the store holds an entry for an id. -/
def storeContains (st : Store) (k : String) : Bool :=
  st.any (fun e => e.1 == k)

/-- The entry the store holds for an id, if any. -/
def storeLookup (st : Store) (k : String) : Option IceTransportMonitor :=
  (st.find? (fun e => e.1 == k)).map (fun e => e.2)

/-- How many entries the store holds for an id. -/
def storeCount (st : Store) (k : String) : Nat :=
  (st.filter (fun e => e.1 == k)).length

/-- In-place update of one store entry: the entry whose key is the
record id delegates to its accept, every other entry is untouched. -/
def storeUpdateEntry (s : IceTransportStats) :
    String × IceTransportMonitor → String × IceTransportMonitor :=
  fun e => if e.1 == s.id then (e.1, e.2.accept s) else e

/-- Modelled from the spec: store ingestion routes a record by its id —
update in place when the id is known, create a fresh monitor otherwise. -/
def storeIngest (st : Store) (s : IceTransportStats) : Store :=
  if storeContains st s.id then
    st.map (storeUpdateEntry s)
  else
    st ++ [(s.id, IceTransportMonitor.create s)]

/-- Concrete base record used to build inputs of example runs. -/
def IceTransportStats.base : IceTransportStats where
  id := "t"
  timestamp := 0
  packetsSent := none
  packetsReceived := none
  bytesSent := none
  bytesReceived := none
  iceRole := none
  iceLocalUsernameFragment := none
  dtlsState := none
  iceState := none
  selectedCandidatePairId := none
  localCertificateId := none
  remoteCertificateId := none
  tlsVersion := none
  dtlsCipher := none
  dtlsRole := none
  srtpCipher := none
  selectedCandidatePairChanges := none

/-- Configuration of the audio desync detector. -/
structure AudioDesyncConfig where
  disabled : Bool
  fractionalCorrectionAlertOnThreshold : ℚ
  fractionalCorrectionAlertOffThreshold : ℚ
  deriving DecidableEq

/-- The fields of an inbound rtp monitor read and written by
`AudioDesyncDetector.update`; `desync` is the per-track alert flag the
detector stores on the monitor. -/
structure InboundRtpAudioView where
  kind : String
  insertedSamplesForDeceleration : Option ℚ
  removedSamplesForAcceleration : Option ℚ
  receivingAudioSamples : Option ℚ
  desync : Bool
  deriving DecidableEq

/-- Private state of an `AudioDesyncDetector`. -/
structure AudioDesyncState where
  startedDesyncAt : Option ℚ
  prevCorrectedSamples : ℚ
  deriving DecidableEq

/-- Result of one `AudioDesyncDetector.update` call: the new private
state, the (possibly rewritten) rtp view, whether the
`audio-desync-track` event was emitted (alert turned on) and whether the
`audio-desync` issue was added (alert turned off). -/
structure AudioDesyncResult where
  state : AudioDesyncState
  rtp : InboundRtpAudioView
  emittedDesyncTrack : Bool
  emittedIssue : Bool
  deriving DecidableEq

namespace AudioDesyncDetector

/-- The `update` method of `AudioDesyncDetector`.  `now` stands for the
wall clock read.  Intervals with a corrected-samples delta below 1 or
fewer than 1 received audio samples are skipped; otherwise the desync
flag follows the two-threshold hysteresis on the fractional correction
dCorrectedSamples / (dCorrectedSamples + receivingAudioSamples).  The
source computes the new flag and then branches on the old and the new
flag; here the four flag combinations are expanded into the four
branches directly.  Note the source never writes `_prevCorrectedSamples`
back, so it stays at its initial value. -/
def update (cfg : AudioDesyncConfig) (st : AudioDesyncState)
    (rtp : InboundRtpAudioView) (now : ℚ) : AudioDesyncResult :=
  if rtp.kind != "audio" then ⟨st, rtp, false, false⟩
  else if cfg.disabled then ⟨st, rtp, false, false⟩
  else if rtp.insertedSamplesForDeceleration.getD 0 + rtp.removedSamplesForAcceleration.getD 0
      - st.prevCorrectedSamples < 1
    ∨ rtp.receivingAudioSamples.getD 0 < 1 then ⟨st, rtp, false, false⟩
  else if rtp.desync then
    if cfg.fractionalCorrectionAlertOffThreshold <
        (rtp.insertedSamplesForDeceleration.getD 0 + rtp.removedSamplesForAcceleration.getD 0
          - st.prevCorrectedSamples)
        / ((rtp.insertedSamplesForDeceleration.getD 0
            + rtp.removedSamplesForAcceleration.getD 0 - st.prevCorrectedSamples)
          + rtp.receivingAudioSamples.getD 0) then
      ⟨st, { rtp with desync := true }, false, false⟩
    else
      ⟨{ st with startedDesyncAt := none }, { rtp with desync := false }, false, true⟩
  else
    if cfg.fractionalCorrectionAlertOnThreshold <
        (rtp.insertedSamplesForDeceleration.getD 0 + rtp.removedSamplesForAcceleration.getD 0
          - st.prevCorrectedSamples)
        / ((rtp.insertedSamplesForDeceleration.getD 0
            + rtp.removedSamplesForAcceleration.getD 0 - st.prevCorrectedSamples)
          + rtp.receivingAudioSamples.getD 0) then
      ⟨{ st with startedDesyncAt := some now }, { rtp with desync := true }, true, false⟩
    else
      ⟨st, { rtp with desync := false }, false, false⟩

/-- One per-cycle observation of the audio inbound rtp entry. -/
structure Observation where
  insertedSamplesForDeceleration : Option ℚ
  removedSamplesForAcceleration : Option ℚ
  receivingAudioSamples : Option ℚ
  now : ℚ

/-- One detector cycle on an audio track: run `update` on the view built
from the observation and the stored desync flag. -/
def observe (cfg : AudioDesyncConfig) (st : AudioDesyncState) (desync : Bool)
    (o : Observation) : AudioDesyncResult :=
  update cfg st
    { kind := "audio"
      insertedSamplesForDeceleration := o.insertedSamplesForDeceleration
      removedSamplesForAcceleration := o.removedSamplesForAcceleration
      receivingAudioSamples := o.receivingAudioSamples
      desync := desync }
    o.now

/-- Run a sequence of detector cycles, threading the private state and
the desync flag. -/
def observeList (cfg : AudioDesyncConfig) (st : AudioDesyncState) (desync : Bool) :
    List Observation → AudioDesyncState × Bool
  | [] => (st, desync)
  | o :: rest =>
    let r := observe cfg st desync o
    observeList cfg r.state r.rtp.desync rest

/-- An observation that cannot turn the alert off: its interval is
skipped, or its fractional correction strictly exceeds the off
threshold. -/
def keepsOn (cfg : AudioDesyncConfig) (prev : ℚ) (o : Observation) : Prop :=
  let d := o.insertedSamplesForDeceleration.getD 0 + o.removedSamplesForAcceleration.getD 0 - prev
  d < 1 ∨ o.receivingAudioSamples.getD 0 < 1 ∨
    cfg.fractionalCorrectionAlertOffThreshold < d / (d + o.receivingAudioSamples.getD 0)

instance (cfg : AudioDesyncConfig) (prev : ℚ) (o : Observation) :
    Decidable (keepsOn cfg prev o) := by
  unfold keepsOn
  infer_instance

end AudioDesyncDetector

/-- The candidate pair fields the congestion detector reads. -/
structure CandidatePairView where
  nominated : Bool
  availableIncomingBitrate : Option ℚ
  availableOutgoingBitrate : Option ℚ
  deriving DecidableEq

/-- The fields of one peer connection entry the congestion detector
reads per update: its id, the quality limitation reasons of its outbound
rtp entries, the selected ice candidate pair of each transport, and the
ice candidate pair entries. -/
structure PeerConnectionView where
  peerConnectionId : String
  outboundQualityLimitationReasons : List String
  transportSelectedPairs : List (Option CandidatePairView)
  iceCandidatePairs : List CandidatePairView
  deriving DecidableEq

/-- The per-peer-connection state kept by the congestion detector. -/
structure PeerConnectionState where
  peerConnectionId : String
  congested : Bool
  outgoingBitrateBeforeCongestion : Option ℚ
  outgoingBitrateAfterCongestion : Option ℚ
  incomingBitrateBeforeCongestion : Option ℚ
  incomingBitrateAfterCongestion : Option ℚ
  deriving DecidableEq

/-- The events a congestion detector update can emit, in order. -/
inductive CongestionEvent where
  | alertOn : CongestionEvent
  | alertOff : CongestionEvent
  | congestion : CongestionEvent
  deriving DecidableEq

/-- The detector state map, in insertion order like a JS `Map`. -/
abbrev CongestionStateMap := List (String × PeerConnectionState)

/-- Lookup in the congestion state map. -/
def cmLookup (st : CongestionStateMap) (k : String) : Option PeerConnectionState :=
  (st.find? (fun e => e.1 == k)).map (fun e => e.2)

/-- Membership in the congestion state map. -/
def cmContains (st : CongestionStateMap) (k : String) : Bool :=
  st.any (fun e => e.1 == k)

/-- Replace the value stored under a key of the congestion state map. -/
def cmSet (st : CongestionStateMap) (k : String) (v : PeerConnectionState) :
    CongestionStateMap :=
  st.map (fun e => if e.1 == k then (e.1, v) else e)

namespace CongestionDetector

/-- The candidate pair the detector reads bitrates from: the first
transport reporting a selected ice candidate pair or, absent that, the
first candidate pair entry with `nominated` true. -/
def selectCandidatePair (pc : PeerConnectionView) : Option CandidatePairView :=
  match pc.transportSelectedPairs.findSome? (fun o => o) with
  | some pair => some pair
  | none => pc.iceCandidatePairs.find? (fun pair => pair.nominated)

/-- The body of the congestion update loop for one peer connection:
fetch or create its state, decide congestion from the outbound quality
limitation reasons, refresh the before/after bitrates from the selected
pair, clear the opposite side when no transition happened, and report
the per-connection events plus whether this connection just got
congested. -/
def updatePc (st0 : CongestionStateMap) (pc : PeerConnectionView) :
    CongestionStateMap × List CongestionEvent × Bool :=
  let state := (cmLookup st0 pc.peerConnectionId).getD
    { peerConnectionId := pc.peerConnectionId
      congested := false
      outgoingBitrateBeforeCongestion := none
      outgoingBitrateAfterCongestion := none
      incomingBitrateBeforeCongestion := none
      incomingBitrateAfterCongestion := none }
  let st1 := if cmContains st0 pc.peerConnectionId then st0
    else st0 ++ [(pc.peerConnectionId, state)]
  let wasCongested := state.congested
  let isCongested := pc.outboundQualityLimitationReasons.any (fun r => r == "bandwidth")
  let pair := selectCandidatePair pc
  let s2 :=
    if isCongested then
      { state with
        incomingBitrateAfterCongestion :=
          jsCoalesce (pair.bind (fun p => p.availableIncomingBitrate))
            state.incomingBitrateAfterCongestion
        outgoingBitrateAfterCongestion :=
          jsCoalesce (pair.bind (fun p => p.availableOutgoingBitrate))
            state.outgoingBitrateAfterCongestion
        congested := true }
    else
      { state with
        incomingBitrateBeforeCongestion :=
          jsCoalesce (pair.bind (fun p => p.availableIncomingBitrate))
            state.incomingBitrateBeforeCongestion
        outgoingBitrateBeforeCongestion :=
          jsCoalesce (pair.bind (fun p => p.availableOutgoingBitrate))
            state.outgoingBitrateBeforeCongestion
        congested := false }
  let s3 :=
    if wasCongested == isCongested then
      if isCongested then
        { s2 with incomingBitrateBeforeCongestion := none, outgoingBitrateBeforeCongestion := none }
      else
        { s2 with incomingBitrateAfterCongestion := none, outgoingBitrateAfterCongestion := none }
    else s2
  let evs : List CongestionEvent :=
    if !wasCongested && isCongested then [CongestionEvent.alertOn]
    else if wasCongested && !isCongested then [CongestionEvent.alertOff]
    else []
  (cmSet st1 pc.peerConnectionId s3, evs, !wasCongested && isCongested)

/-- The congestion update loop over the peer connection entries,
accumulating the state map, the emitted events, the `gotCongested` flag
and the visited ids. -/
def updateLoop (st : CongestionStateMap) (evs : List CongestionEvent) (got : Bool)
    (visited : List String) :
    List PeerConnectionView → CongestionStateMap × List CongestionEvent × Bool × List String
  | [] => (st, evs, got, visited)
  | pc :: rest =>
    let r := updatePc st pc
    updateLoop r.1 (evs ++ r.2.1) (got || r.2.2) (visited ++ [pc.peerConnectionId]) rest

/-- The `update` method of `CongestionDetector`: run the loop, emit the
`congestion` event once when some connection just got congested, then
prune the states of unvisited peer connections. -/
def update (states : CongestionStateMap) (pcs : List PeerConnectionView) :
    CongestionStateMap × List CongestionEvent :=
  let r := updateLoop states [] false [] pcs
  let evs := if r.2.2.1 then r.2.1 ++ [CongestionEvent.congestion] else r.2.1
  let pruned := r.1.filter (fun e => r.2.2.2.contains e.1)
  (pruned, evs)

/-- The state stored for a peer connection that is congested in the
current update: after-congestion bitrates refreshed from the selected
candidate pair (kept when the pair or a field is absent) and the
congested flag set. -/
def targetCongestedState (pc : PeerConnectionView) (st0 : PeerConnectionState) :
    PeerConnectionState :=
  { st0 with
    incomingBitrateAfterCongestion :=
      jsCoalesce ((selectCandidatePair pc).bind (fun p => p.availableIncomingBitrate))
        st0.incomingBitrateAfterCongestion
    outgoingBitrateAfterCongestion :=
      jsCoalesce ((selectCandidatePair pc).bind (fun p => p.availableOutgoingBitrate))
        st0.outgoingBitrateAfterCongestion
    congested := true }

end CongestionDetector

/-- Configuration of the long-connection-establishment detector. -/
structure LongPcConfig where
  disabled : Bool
  thresholdInMs : ℚ
  deriving DecidableEq

/-- The peer connection fields one update of the detector reads; `now`
stands for the wall clock read. -/
structure PcConnectionView where
  connectionState : String
  connectingStartedAt : Option ℚ
  now : ℚ
  deriving DecidableEq

namespace LongPcConnectionEstablishmentDetector

/-- The `update` method of `LongPcConnectionEstablishmentDetector` on
the `_evented` flag: returns the new flag and whether the
`too-long-pc-connection-establishment` event was emitted. -/
def update (cfg : LongPcConfig) (evented : Bool) (pc : PcConnectionView) : Bool × Bool :=
  if cfg.disabled then (evented, false)
  else
    let evented1 :=
      if pc.connectionState != "connecting" then
        if evented && (pc.connectionState == "connected") then false else evented
      else evented
    if evented1 then (evented1, false)
    else
      match pc.connectingStartedAt with
      | none => (evented1, false)
      | some startedAt =>
        let duration := pc.now - startedAt
        if duration < cfg.thresholdInMs then (evented1, false)
        else (true, true)

/-- Run a sequence of detector updates, returning the final `_evented`
flag and whether any update of the sequence emitted. -/
def updateSeq (cfg : LongPcConfig) (evented : Bool) : List PcConnectionView → Bool × Bool
  | [] => (evented, false)
  | pc :: rest =>
    let r := update cfg evented pc
    let r2 := updateSeq cfg r.1 rest
    (r2.1, r.2 || r2.2)

end LongPcConnectionEstablishmentDetector

/-- An optional rate value that is either absent or non-negative. -/
def nonnegOpt : Option ℚ → Prop
  | none => True
  | some v => 0 ≤ v

instance (o : Option ℚ) : Decidable (nonnegOpt o) := by
  unfold nonnegOpt
  cases o <;> infer_instance

/-- Both byte rates of a transport monitor are absent or non-negative. -/
def IceTransportMonitor.ratesNonneg (m : IceTransportMonitor) : Prop :=
  nonnegOpt m.sendingBitrate ∧ nonnegOpt m.receivingBitrate

instance (m : IceTransportMonitor) : Decidable m.ratesNonneg := by
  unfold IceTransportMonitor.ratesNonneg
  infer_instance

/-- A record whose byte counters do not decrease with respect to the
stored monitor values, whenever the code compares them. -/
def IceTransportMonitor.stepMonotone (m : IceTransportMonitor) (s : IceTransportStats) : Prop :=
  ((truthy m.bytesSent && truthy s.bytesSent) = true →
    m.bytesSent.getD 0 ≤ s.bytesSent.getD 0) ∧
  ((truthy m.bytesReceived && truthy s.bytesReceived) = true →
    m.bytesReceived.getD 0 ≤ s.bytesReceived.getD 0)

instance (m : IceTransportMonitor) (s : IceTransportStats) : Decidable (m.stepMonotone s) := by
  unfold IceTransportMonitor.stepMonotone
  infer_instance

/-- Every accept of the sequence is byte-monotone with respect to the
monitor state it is applied to. -/
def IceTransportMonitor.monotoneSteps (m : IceTransportMonitor) :
    List IceTransportStats → Prop
  | [] => True
  | s :: rest => m.stepMonotone s ∧ (m.accept s).monotoneSteps rest

instance IceTransportMonitor.monotoneSteps.instDecidable (m : IceTransportMonitor) :
    (l : List IceTransportStats) → Decidable (m.monotoneSteps l)
  | [] => by unfold IceTransportMonitor.monotoneSteps; infer_instance
  | s :: rest => by
    unfold IceTransportMonitor.monotoneSteps
    have := IceTransportMonitor.monotoneSteps.instDecidable (m.accept s) rest
    infer_instance

/-- Some accept of the sequence recomputes `deltaPacketsSent`: its
elapsed time is strictly positive and both packetsSent counters are
truthy at that step. -/
def IceTransportMonitor.hasDeltaStepPS (m : IceTransportMonitor) :
    List IceTransportStats → Prop
  | [] => False
  | s :: rest =>
    (0 < s.timestamp - m.timestamp ∧ (truthy m.packetsSent && truthy s.packetsSent) = true) ∨
      (m.accept s).hasDeltaStepPS rest

/-- Some accept of the sequence recomputes `deltaPacketsReceived`. -/
def IceTransportMonitor.hasDeltaStepPR (m : IceTransportMonitor) :
    List IceTransportStats → Prop
  | [] => False
  | s :: rest =>
    (0 < s.timestamp - m.timestamp ∧
      (truthy m.packetsReceived && truthy s.packetsReceived) = true) ∨
      (m.accept s).hasDeltaStepPR rest

/-- Some accept of the sequence recomputes `deltaBytesSent`. -/
def IceTransportMonitor.hasDeltaStepBS (m : IceTransportMonitor) :
    List IceTransportStats → Prop
  | [] => False
  | s :: rest =>
    (0 < s.timestamp - m.timestamp ∧ (truthy m.bytesSent && truthy s.bytesSent) = true) ∨
      (m.accept s).hasDeltaStepBS rest

/-- Some accept of the sequence recomputes `deltaBytesReceived`. -/
def IceTransportMonitor.hasDeltaStepBR (m : IceTransportMonitor) :
    List IceTransportStats → Prop
  | [] => False
  | s :: rest =>
    (0 < s.timestamp - m.timestamp ∧ (truthy m.bytesReceived && truthy s.bytesReceived) = true) ∨
      (m.accept s).hasDeltaStepBR rest

/-- The fields of a remote inbound rtp counterpart that
`OutboundTrackMonitor.update` reads through `getRemoteInboundRtp()`. -/
structure RemoteInboundRtpView where
  jitter : Option ℚ
  fractionLost : Option ℚ
  packetRate : Option ℚ
  deriving DecidableEq

/-- The fields of one mapped outbound rtp monitor that
`OutboundTrackMonitor.update` reads.  The outbound rtp monitor computes
its `bitrate` and `packetRate` outside this method (its class is not
under src), so those rate fields enter the update as inputs;
`remoteInbound` stands for the absence-safe `getRemoteInboundRtp()`
lookup. -/
structure OutboundRtpView where
  bitrate : Option ℚ
  packetRate : Option ℚ
  remoteInbound : Option RemoteInboundRtpView
  deriving DecidableEq

/-- The aggregate fields of an `OutboundTrackMonitor` that its update
recomputes. -/
structure OutboundTrackMonitor where
  bitrate : Option ℚ
  jitter : Option ℚ
  fractionLost : Option ℚ
  sendingPacketRate : Option ℚ
  remoteReceivedPacketRate : Option ℚ
  deriving DecidableEq

namespace OutboundTrackMonitor

/-- The `update` method of `OutboundTrackMonitor`: it resets the five
aggregate fields to 0 and then adds the corresponding value of every
mapped outbound rtp in turn, a missing value counting as 0 (the `?? 0`
defaults of the source), so each aggregate equals the sum over the
mapped entries. -/
def update (m : OutboundTrackMonitor) (rtps : List OutboundRtpView) :
    OutboundTrackMonitor :=
  { m with
    bitrate := some ((rtps.map (fun r => r.bitrate.getD 0)).sum)
    jitter := some ((rtps.map
      (fun r => (r.remoteInbound.bind (fun ri => ri.jitter)).getD 0)).sum)
    fractionLost := some ((rtps.map
      (fun r => (r.remoteInbound.bind (fun ri => ri.fractionLost)).getD 0)).sum)
    sendingPacketRate := some ((rtps.map (fun r => r.packetRate.getD 0)).sum)
    remoteReceivedPacketRate := some ((rtps.map
      (fun r => (r.remoteInbound.bind (fun ri => ri.packetRate)).getD 0)).sum) }

/-- The bitrate and packet-rate aggregates of a track monitor are
absent or non-negative. -/
def aggregatedRatesNonneg (m : OutboundTrackMonitor) : Prop :=
  nonnegOpt m.bitrate ∧ nonnegOpt m.sendingPacketRate
    ∧ nonnegOpt m.remoteReceivedPacketRate

instance (m : OutboundTrackMonitor) : Decidable m.aggregatedRatesNonneg := by
  unfold aggregatedRatesNonneg
  infer_instance

end OutboundTrackMonitor

/-!
Theorems.  The helper lemmas come first; each claim is then settled by
one named theorem (with its counterexample and witness where needed).
-/

namespace IceTransportMonitor

lemma accept_visited (m : IceTransportMonitor) (s : IceTransportStats) :
    (m.accept s)._visited = true := by
  unfold accept
  split <;> rfl

lemma accept_nonpos (m : IceTransportMonitor) (s : IceTransportStats)
    (h : s.timestamp - m.timestamp ≤ 0) :
    m.accept s = { m with _visited := true } := by
  unfold accept
  rw [if_pos h]

end IceTransportMonitor

namespace IceCandidateMonitor

lemma accept_visited_ic (c : IceCandidateMonitor) (cs : IceCandidateStats) :
    (c.accept cs)._visited = true := by
  unfold accept
  split <;> rfl

lemma accept_nonpos_ic (c : IceCandidateMonitor) (cs : IceCandidateStats)
    (h : cs.timestamp - c.timestamp ≤ 0) :
    c.accept cs = { c with _visited := true } := by
  unfold accept
  rw [if_pos h]

end IceCandidateMonitor

namespace IceTransportMonitor

lemma accept_dps_isSome (m : IceTransportMonitor) (s : IceTransportStats) :
    ((m.accept s).deltaPacketsSent.isSome = true) ↔
      ((0 < s.timestamp - m.timestamp
          ∧ (truthy m.packetsSent && truthy s.packetsSent) = true)
        ∨ m.deltaPacketsSent.isSome = true) := by
  unfold accept
  by_cases h : s.timestamp - m.timestamp ≤ 0
  · simp [h, not_lt.mpr h]
  · rw [if_neg h]
    by_cases hc : (truthy m.packetsSent && truthy s.packetsSent) = true
    · simp [hc, not_le.mp h]
    · simp [hc]

lemma accept_dpr_isSome (m : IceTransportMonitor) (s : IceTransportStats) :
    ((m.accept s).deltaPacketsReceived.isSome = true) ↔
      ((0 < s.timestamp - m.timestamp
          ∧ (truthy m.packetsReceived && truthy s.packetsReceived) = true)
        ∨ m.deltaPacketsReceived.isSome = true) := by
  unfold accept
  by_cases h : s.timestamp - m.timestamp ≤ 0
  · simp [h, not_lt.mpr h]
  · rw [if_neg h]
    by_cases hc : (truthy m.packetsReceived && truthy s.packetsReceived) = true
    · simp [hc, not_le.mp h]
    · simp [hc]

lemma accept_dbs_isSome (m : IceTransportMonitor) (s : IceTransportStats) :
    ((m.accept s).deltaBytesSent.isSome = true) ↔
      ((0 < s.timestamp - m.timestamp
          ∧ (truthy m.bytesSent && truthy s.bytesSent) = true)
        ∨ m.deltaBytesSent.isSome = true) := by
  unfold accept
  by_cases h : s.timestamp - m.timestamp ≤ 0
  · simp [h, not_lt.mpr h]
  · rw [if_neg h]
    by_cases hc : (truthy m.bytesSent && truthy s.bytesSent) = true
    · simp [hc, not_le.mp h]
    · simp [hc]

lemma accept_dbr_isSome (m : IceTransportMonitor) (s : IceTransportStats) :
    ((m.accept s).deltaBytesReceived.isSome = true) ↔
      ((0 < s.timestamp - m.timestamp
          ∧ (truthy m.bytesReceived && truthy s.bytesReceived) = true)
        ∨ m.deltaBytesReceived.isSome = true) := by
  unfold accept
  by_cases h : s.timestamp - m.timestamp ≤ 0
  · simp [h, not_lt.mpr h]
  · rw [if_neg h]
    by_cases hc : (truthy m.bytesReceived && truthy s.bytesReceived) = true
    · simp [hc, not_le.mp h]
    · simp [hc]

lemma acceptList_dps_isSome (l : List IceTransportStats) :
    ∀ m : IceTransportMonitor,
      ((m.acceptList l).deltaPacketsSent.isSome = true) ↔
        (m.hasDeltaStepPS l ∨ m.deltaPacketsSent.isSome = true) := by
  induction l with
  | nil => intro m; simp [acceptList, hasDeltaStepPS]
  | cons s rest ih =>
    intro m
    simp only [acceptList, hasDeltaStepPS]
    rw [ih (m.accept s), accept_dps_isSome]
    tauto

lemma acceptList_dpr_isSome (l : List IceTransportStats) :
    ∀ m : IceTransportMonitor,
      ((m.acceptList l).deltaPacketsReceived.isSome = true) ↔
        (m.hasDeltaStepPR l ∨ m.deltaPacketsReceived.isSome = true) := by
  induction l with
  | nil => intro m; simp [acceptList, hasDeltaStepPR]
  | cons s rest ih =>
    intro m
    simp only [acceptList, hasDeltaStepPR]
    rw [ih (m.accept s), accept_dpr_isSome]
    tauto

lemma acceptList_dbs_isSome (l : List IceTransportStats) :
    ∀ m : IceTransportMonitor,
      ((m.acceptList l).deltaBytesSent.isSome = true) ↔
        (m.hasDeltaStepBS l ∨ m.deltaBytesSent.isSome = true) := by
  induction l with
  | nil => intro m; simp [acceptList, hasDeltaStepBS]
  | cons s rest ih =>
    intro m
    simp only [acceptList, hasDeltaStepBS]
    rw [ih (m.accept s), accept_dbs_isSome]
    tauto

lemma acceptList_dbr_isSome (l : List IceTransportStats) :
    ∀ m : IceTransportMonitor,
      ((m.acceptList l).deltaBytesReceived.isSome = true) ↔
        (m.hasDeltaStepBR l ∨ m.deltaBytesReceived.isSome = true) := by
  induction l with
  | nil => intro m; simp [acceptList, hasDeltaStepBR]
  | cons s rest ih =>
    intro m
    simp only [acceptList, hasDeltaStepBR]
    rw [ih (m.accept s), accept_dbr_isSome]
    tauto

end IceTransportMonitor

/-- C1 counterexample: the claim fails in two ways.  First, delta fields
are never cleared: after an accept with positive elapsed time computed
deltaBytesSent = 100, a further accept with non-positive elapsed time
still leaves deltaBytesSent present, not absent.  Second, a previous
absolute value of 0 exists but is falsy, so with positive elapsed time
and both counters present (stored value 0) no delta is computed. -/
theorem C1_counterexample :
    ((((IceTransportMonitor.create
          { IceTransportStats.base with bytesSent := some 100 }).accept
        { IceTransportStats.base with timestamp := 1000, bytesSent := some 200 }).accept
        { IceTransportStats.base with timestamp := 500, bytesSent := some 300 }).deltaBytesSent
        = some 100
      ∧ ({ IceTransportStats.base with timestamp := 500, bytesSent := some 300 }
            : IceTransportStats).timestamp
          - ((IceTransportMonitor.create
              { IceTransportStats.base with bytesSent := some 100 }).accept
            { IceTransportStats.base with timestamp := 1000, bytesSent := some 200 }).timestamp
        ≤ 0)
    ∧ (((IceTransportMonitor.create
          { IceTransportStats.base with bytesSent := some 0 }).accept
        { IceTransportStats.base with timestamp := 1000, bytesSent := some 200 }).deltaBytesSent
        = none
      ∧ (IceTransportMonitor.create
          { IceTransportStats.base with bytesSent := some 0 }).bytesSent = some 0
      ∧ 0 < ({ IceTransportStats.base with timestamp := 1000, bytesSent := some 200 }
            : IceTransportStats).timestamp
          - (IceTransportMonitor.create
              { IceTransportStats.base with bytesSent := some 0 }).timestamp) := by
  refine ⟨⟨?_, ?_⟩, ?_, ?_, ?_⟩ <;>
    norm_num [IceTransportMonitor.accept, IceTransportMonitor.create,
      IceTransportStats.base, truthy]

/-- C1 (amended): after any sequence of accept calls on a freshly
created entry monitor, a delta field is present iff some accept of the
sequence had strictly positive elapsed time AND both the stored and the
incoming value of the corresponding counter were present and non-zero at
that step.  In particular an accept with non-positive elapsed time or a
missing counter does not make the delta absent: delta fields are never
cleared, so a previously computed delta persists. -/
theorem C1_delta_presence (s0 : IceTransportStats) (l : List IceTransportStats) :
    (((IceTransportMonitor.create s0).acceptList l).deltaPacketsSent.isSome = true
      ↔ (IceTransportMonitor.create s0).hasDeltaStepPS l)
    ∧ (((IceTransportMonitor.create s0).acceptList l).deltaPacketsReceived.isSome = true
      ↔ (IceTransportMonitor.create s0).hasDeltaStepPR l)
    ∧ (((IceTransportMonitor.create s0).acceptList l).deltaBytesSent.isSome = true
      ↔ (IceTransportMonitor.create s0).hasDeltaStepBS l)
    ∧ (((IceTransportMonitor.create s0).acceptList l).deltaBytesReceived.isSome = true
      ↔ (IceTransportMonitor.create s0).hasDeltaStepBR l) := by
  refine ⟨?_, ?_, ?_, ?_⟩
  · rw [IceTransportMonitor.acceptList_dps_isSome]
    simp [IceTransportMonitor.create]
  · rw [IceTransportMonitor.acceptList_dpr_isSome]
    simp [IceTransportMonitor.create]
  · rw [IceTransportMonitor.acceptList_dbs_isSome]
    simp [IceTransportMonitor.create]
  · rw [IceTransportMonitor.acceptList_dbr_isSome]
    simp [IceTransportMonitor.create]

/-- C3 counterexample: the stored byte counter is present with value 0
and the incoming counter is present, the elapsed time is strictly
positive, yet no rate is computed (the claimed formula would give
8000 × 8 / 1 = 64000), because the code tests JS truthiness and 0 is
falsy, not mere presence. -/
theorem C3_counterexample :
    ((IceTransportMonitor.create
        { IceTransportStats.base with bytesSent := some 0 }).accept
      { IceTransportStats.base with timestamp := 1000, bytesSent := some 8000 }).sendingBitrate
      = none
    ∧ (IceTransportMonitor.create
        { IceTransportStats.base with bytesSent := some 0 }).bytesSent = some 0
    ∧ ({ IceTransportStats.base with timestamp := 1000, bytesSent := some 8000 }
        : IceTransportStats).bytesSent = some 8000
    ∧ 0 < ({ IceTransportStats.base with timestamp := 1000, bytesSent := some 8000 }
          : IceTransportStats).timestamp
        - (IceTransportMonitor.create
            { IceTransportStats.base with bytesSent := some 0 }).timestamp := by
  refine ⟨?_, ?_, ?_, ?_⟩ <;>
    norm_num [IceTransportMonitor.accept, IceTransportMonitor.create,
      IceTransportStats.base, truthy]

/-- C3 (amended): for every accept call with strictly positive elapsed
time where both the stored and the incoming byte counter are present AND
non-zero (JS truthy, not merely present), the computed delta is
newValue − previousValue and the rate is delta × 8 / elapsedSeconds with
elapsedSeconds = (newTimestamp − storedTimestamp) / 1000, for the
sending and the receiving side. -/
theorem C3_rate_formula (m : IceTransportMonitor) (s : IceTransportStats)
    (h : 0 < s.timestamp - m.timestamp)
    (hbs : (truthy m.bytesSent && truthy s.bytesSent) = true)
    (hbr : (truthy m.bytesReceived && truthy s.bytesReceived) = true) :
    (m.accept s).deltaBytesSent = some (s.bytesSent.getD 0 - m.bytesSent.getD 0)
    ∧ (m.accept s).sendingBitrate
      = some ((s.bytesSent.getD 0 - m.bytesSent.getD 0) * 8
          / ((s.timestamp - m.timestamp) / 1000))
    ∧ (m.accept s).deltaBytesReceived
      = some (s.bytesReceived.getD 0 - m.bytesReceived.getD 0)
    ∧ (m.accept s).receivingBitrate
      = some ((s.bytesReceived.getD 0 - m.bytesReceived.getD 0) * 8
          / ((s.timestamp - m.timestamp) / 1000)) := by
  unfold IceTransportMonitor.accept
  rw [if_neg (not_le.mpr h)]
  simp [hbs, hbr]

/-- C3 witness: a concrete accept with elapsed time 2 s, bytesSent going
from 1000 to 17000 (rate 16000 × 8 / 2 = 64000) and bytesReceived going
from 500 to 8500 (rate 8000 × 8 / 2 = 32000). -/
theorem C3_witness :
    (0 < ({ IceTransportStats.base with
            timestamp := 2000
            bytesSent := some 17000
            bytesReceived := some 8500 } : IceTransportStats).timestamp
        - (IceTransportMonitor.create
            { IceTransportStats.base with
              bytesSent := some 1000
              bytesReceived := some 500 }).timestamp)
    ∧ ((IceTransportMonitor.create
          { IceTransportStats.base with
            bytesSent := some 1000
            bytesReceived := some 500 }).accept
        { IceTransportStats.base with
          timestamp := 2000
          bytesSent := some 17000
          bytesReceived := some 8500 }).sendingBitrate = some 64000
    ∧ ((IceTransportMonitor.create
          { IceTransportStats.base with
            bytesSent := some 1000
            bytesReceived := some 500 }).accept
        { IceTransportStats.base with
          timestamp := 2000
          bytesSent := some 17000
          bytesReceived := some 8500 }).receivingBitrate = some 32000 := by
  have h := C3_rate_formula
    (IceTransportMonitor.create
      { IceTransportStats.base with bytesSent := some 1000, bytesReceived := some 500 })
    { IceTransportStats.base with
      timestamp := 2000
      bytesSent := some 17000
      bytesReceived := some 8500 }
    (by norm_num [IceTransportMonitor.create, IceTransportStats.base])
    (by norm_num [IceTransportMonitor.create, IceTransportStats.base, truthy])
    (by norm_num [IceTransportMonitor.create, IceTransportStats.base, truthy])
  refine ⟨by norm_num [IceTransportMonitor.create, IceTransportStats.base], ?_, ?_⟩
  · rw [h.2.1]
    norm_num [IceTransportMonitor.create, IceTransportStats.base]
  · rw [h.2.2.2]
    norm_num [IceTransportMonitor.create, IceTransportStats.base]

/-- C4 counterexample: the claim fails for the transport rates and for
the track aggregates alike.  An accepted record whose byte counter
decreases (100 down to 50 over one second) produces
sendingBitrate = −400, a negative rate; and an OutboundTrackMonitor
update over a mapped outbound rtp carrying such negative rate values
(bitrate −400, packetRate −50) produces negative aggregated bitrate and
sendingPacketRate, so not every input sequence keeps the bitrate and
packet-rate fields non-negative. -/
theorem C4_counterexample :
    (((IceTransportMonitor.create
        { IceTransportStats.base with bytesSent := some 100 }).accept
      { IceTransportStats.base with timestamp := 1000, bytesSent := some 50 }).sendingBitrate
      = some (-400)
    ∧ ((-400 : ℚ) < 0))
    ∧ ((OutboundTrackMonitor.update ⟨none, none, none, none, none⟩
        [⟨some (-400), some (-50), none⟩]).bitrate = some (-400)
    ∧ (OutboundTrackMonitor.update ⟨none, none, none, none, none⟩
        [⟨some (-400), some (-50), none⟩]).sendingPacketRate = some (-50)
    ∧ ((-50 : ℚ) < 0)) := by
  refine ⟨⟨?_, by norm_num⟩, ?_, ?_, by norm_num⟩
  · norm_num [IceTransportMonitor.accept, IceTransportMonitor.create,
      IceTransportStats.base, truthy]
  · norm_num [OutboundTrackMonitor.update]
  · norm_num [OutboundTrackMonitor.update]

namespace IceTransportMonitor

lemma accept_ratesNonneg (m : IceTransportMonitor) (s : IceTransportStats)
    (hm : m.ratesNonneg) (hs : m.stepMonotone s) : (m.accept s).ratesNonneg := by
  unfold accept
  by_cases h : s.timestamp - m.timestamp ≤ 0
  · rw [if_pos h]
    exact hm
  · rw [if_neg h]
    have hsec : 0 < (s.timestamp - m.timestamp) / 1000 :=
      div_pos (not_le.mp h) (by norm_num)
    constructor
    · by_cases hc : (truthy m.bytesSent && truthy s.bytesSent) = true
      · simp only [ratesNonneg, hc, if_true, nonnegOpt]
        have hd : 0 ≤ s.bytesSent.getD 0 - m.bytesSent.getD 0 := sub_nonneg.mpr (hs.1 hc)
        exact div_nonneg (mul_nonneg hd (by norm_num)) (le_of_lt hsec)
      · simp only [ratesNonneg, hc, if_false]
        exact hm.1
    · by_cases hc : (truthy m.bytesReceived && truthy s.bytesReceived) = true
      · simp only [ratesNonneg, hc, if_true, nonnegOpt]
        have hd : 0 ≤ s.bytesReceived.getD 0 - m.bytesReceived.getD 0 :=
          sub_nonneg.mpr (hs.2 hc)
        exact div_nonneg (mul_nonneg hd (by norm_num)) (le_of_lt hsec)
      · simp only [ratesNonneg, hc, if_false]
        exact hm.2

lemma acceptList_ratesNonneg (l : List IceTransportStats) :
    ∀ m : IceTransportMonitor, m.ratesNonneg → m.monotoneSteps l →
      (m.acceptList l).ratesNonneg := by
  induction l with
  | nil =>
    intro m hm _
    exact hm
  | cons s rest ih =>
    intro m hm hms
    exact ih (m.accept s) (accept_ratesNonneg m s hm hms.1) hms.2

end IceTransportMonitor

lemma nonnegOpt_getD (o : Option ℚ) (h : nonnegOpt o) : 0 ≤ o.getD 0 := by
  cases o with
  | none => exact le_refl 0
  | some v => exact h

lemma OutboundTrackMonitor.update_aggregatedRatesNonneg (m : OutboundTrackMonitor)
    (rtps : List OutboundRtpView)
    (h : ∀ r ∈ rtps, nonnegOpt r.bitrate ∧ nonnegOpt r.packetRate
      ∧ nonnegOpt (r.remoteInbound.bind (fun ri => ri.packetRate))) :
    (OutboundTrackMonitor.update m rtps).aggregatedRatesNonneg := by
  refine ⟨?_, ?_, ?_⟩
  · show (0 : ℚ) ≤ (rtps.map (fun r => r.bitrate.getD 0)).sum
    apply List.sum_nonneg
    intro x hx
    rcases List.mem_map.mp hx with ⟨r, hr, rfl⟩
    exact nonnegOpt_getD _ (h r hr).1
  · show (0 : ℚ) ≤ (rtps.map (fun r => r.packetRate.getD 0)).sum
    apply List.sum_nonneg
    intro x hx
    rcases List.mem_map.mp hx with ⟨r, hr, rfl⟩
    exact nonnegOpt_getD _ (h r hr).2.1
  · show (0 : ℚ) ≤ (rtps.map
        (fun r => (r.remoteInbound.bind (fun ri => ri.packetRate)).getD 0)).sum
    apply List.sum_nonneg
    intro x hx
    rcases List.mem_map.mp hx with ⟨r, hr, rfl⟩
    exact nonnegOpt_getD _ (h r hr).2.2

/-- C4 (amended): the bitrate and packet-rate fields stay absent or
non-negative under non-negative inputs, and only under them.  First:
for every sequence of accept calls on a fresh ice transport monitor in
which the byte counters never decrease (whenever the code compares a
stored and an incoming counter, the incoming one is at least the stored
one — the monotone-counter regime of the external interface),
sendingBitrate and receivingBitrate are always absent or non-negative.
Second: for every OutboundTrackMonitor update whose mapped outbound rtp
entries carry absent-or-non-negative bitrate and packet-rate values
(those per-rtp rates are computed outside this method), the aggregated
bitrate, sendingPacketRate and remoteReceivedPacketRate are
non-negative.  A decreasing counter, or a mapped rtp with a negative
rate, can produce a negative rate field. -/
theorem C4_rates_nonneg_of_monotone :
    (∀ (s0 : IceTransportStats) (l : List IceTransportStats),
      (IceTransportMonitor.create s0).monotoneSteps l →
      ((IceTransportMonitor.create s0).acceptList l).ratesNonneg)
    ∧ (∀ (m : OutboundTrackMonitor) (rtps : List OutboundRtpView),
      (∀ r ∈ rtps, nonnegOpt r.bitrate ∧ nonnegOpt r.packetRate
        ∧ nonnegOpt (r.remoteInbound.bind (fun ri => ri.packetRate))) →
      (OutboundTrackMonitor.update m rtps).aggregatedRatesNonneg) :=
  ⟨fun s0 l h =>
    IceTransportMonitor.acceptList_ratesNonneg l (IceTransportMonitor.create s0)
      ⟨by simp [IceTransportMonitor.create, nonnegOpt],
       by simp [IceTransportMonitor.create, nonnegOpt]⟩ h,
   fun m rtps h => OutboundTrackMonitor.update_aggregatedRatesNonneg m rtps h⟩

/-- C4 witness: a concrete monotone byte-counter step keeps the
transport rates non-negative, and a track update over one mapped
outbound rtp with non-negative rates yields non-negative aggregates. -/
theorem C4_witness :
    ((IceTransportMonitor.create
        { IceTransportStats.base with bytesSent := some 1000 }).monotoneSteps
      [{ IceTransportStats.base with timestamp := 1000, bytesSent := some 2000 }]
    ∧ ((IceTransportMonitor.create
        { IceTransportStats.base with bytesSent := some 1000 }).acceptList
      [{ IceTransportStats.base with timestamp := 1000, bytesSent := some 2000 }]).ratesNonneg)
    ∧ (OutboundTrackMonitor.update ⟨none, none, none, none, none⟩
        [⟨some 64000, some 50, some ⟨some 0, some 0, some 49⟩⟩]).aggregatedRatesNonneg := by
  have hm : (IceTransportMonitor.create
      { IceTransportStats.base with bytesSent := some 1000 }).monotoneSteps
      [{ IceTransportStats.base with timestamp := 1000, bytesSent := some 2000 }] := by
    refine ⟨⟨fun _ => ?_, fun hc => ?_⟩, trivial⟩
    · norm_num [IceTransportMonitor.create, IceTransportStats.base]
    · simp [IceTransportMonitor.create, IceTransportStats.base, truthy] at hc
  have ht : ∀ r ∈ [(⟨some 64000, some 50, some ⟨some 0, some 0, some 49⟩⟩ :
      OutboundRtpView)],
      nonnegOpt r.bitrate ∧ nonnegOpt r.packetRate
        ∧ nonnegOpt (r.remoteInbound.bind (fun ri => ri.packetRate)) := by
    intro r hr
    rcases List.mem_singleton.mp hr with rfl
    refine ⟨?_, ?_, ?_⟩ <;> norm_num [nonnegOpt, Option.bind]
  exact ⟨⟨hm, C4_rates_nonneg_of_monotone.1
      { IceTransportStats.base with bytesSent := some 1000 }
      [{ IceTransportStats.base with timestamp := 1000, bytesSent := some 2000 }] hm⟩,
    C4_rates_nonneg_of_monotone.2 ⟨none, none, none, none, none⟩
      [⟨some 64000, some 50, some ⟨some 0, some 0, some 49⟩⟩] ht⟩

/-- C2 counterexample: a record with the same timestamp as the stored
one and a different bytesSent value is accepted, yet the stored absolute
bytesSent value is left at its prior value instead of being refreshed to
the new value, because accept returns before the assignment. -/
theorem C2_counterexample :
    ((IceTransportMonitor.create
        { IceTransportStats.base with timestamp := 1000, bytesSent := some 100 }).accept
      { IceTransportStats.base with timestamp := 1000, bytesSent := some 999 }).bytesSent
        = some 100
    ∧ ({ IceTransportStats.base with timestamp := 1000, bytesSent := some 999 }
        : IceTransportStats).timestamp
      - (IceTransportMonitor.create
          { IceTransportStats.base with timestamp := 1000, bytesSent := some 100 }).timestamp
      ≤ 0 := by
  refine ⟨?_, ?_⟩ <;>
    norm_num [IceTransportMonitor.accept, IceTransportMonitor.create, IceTransportStats.base]

/-- C2 (amended): an accept whose record carries a timestamp less than
or equal to the stored timestamp skips the delta computation and still
sets the visited flag, but it also returns before the assignment, so the
absolute-value fields keep their prior values and are NOT refreshed to
the new record values.  This holds for the ice transport monitor and for
the ice candidate monitor. -/
theorem C2_stale_accept (m : IceTransportMonitor) (s : IceTransportStats)
    (c : IceCandidateMonitor) (cs : IceCandidateStats) :
    (s.timestamp - m.timestamp ≤ 0 → m.accept s = { m with _visited := true })
    ∧ (cs.timestamp - c.timestamp ≤ 0 → c.accept cs = { c with _visited := true }) :=
  ⟨fun h => IceTransportMonitor.accept_nonpos m s h,
   fun h => IceCandidateMonitor.accept_nonpos_ic c cs h⟩

/-- C2 witness: the amended statement evaluated on a concrete stale
update of each monitor kind. -/
theorem C2_witness :
    ((({ IceTransportStats.base with timestamp := 500 } : IceTransportStats).timestamp
        - (IceTransportMonitor.create
            { IceTransportStats.base with timestamp := 1000 }).timestamp ≤ 0)
      ∧ (IceTransportMonitor.create
            { IceTransportStats.base with timestamp := 1000 }).accept
          { IceTransportStats.base with timestamp := 500 }
        = { IceTransportMonitor.create
              { IceTransportStats.base with timestamp := 1000 } with _visited := true })
    ∧ ((({ IceCandidateStats.base with timestamp := 500 } : IceCandidateStats).timestamp
        - (IceCandidateMonitor.create
            { IceCandidateStats.base with timestamp := 1000 }).timestamp ≤ 0)
      ∧ (IceCandidateMonitor.create
            { IceCandidateStats.base with timestamp := 1000 }).accept
          { IceCandidateStats.base with timestamp := 500 }
        = { IceCandidateMonitor.create
              { IceCandidateStats.base with timestamp := 1000 } with _visited := true }) :=
  ⟨⟨by norm_num [IceTransportMonitor.create, IceTransportStats.base],
    (C2_stale_accept
      (IceTransportMonitor.create { IceTransportStats.base with timestamp := 1000 })
      { IceTransportStats.base with timestamp := 500 }
      (IceCandidateMonitor.create { IceCandidateStats.base with timestamp := 1000 })
      { IceCandidateStats.base with timestamp := 500 }).1
      (by norm_num [IceTransportMonitor.create, IceTransportStats.base])⟩,
   ⟨by norm_num [IceCandidateMonitor.create, IceCandidateStats.base],
    (C2_stale_accept
      (IceTransportMonitor.create { IceTransportStats.base with timestamp := 1000 })
      { IceTransportStats.base with timestamp := 500 }
      (IceCandidateMonitor.create { IceCandidateStats.base with timestamp := 1000 })
      { IceCandidateStats.base with timestamp := 500 }).2
      (by norm_num [IceCandidateMonitor.create, IceCandidateStats.base])⟩⟩

/-- C10: reading the public visited property is a destructive read: for
every entry monitor, after any accept call the first read returns true
and an immediately following second read returns false, both for the
ice transport monitor and for the ice candidate monitor. -/
theorem C10_visited_destructive_read (m : IceTransportMonitor) (s : IceTransportStats)
    (c : IceCandidateMonitor) (cs : IceCandidateStats) :
    ((m.accept s).readVisited.1 = true
      ∧ ((m.accept s).readVisited.2.readVisited).1 = false)
    ∧ ((c.accept cs).readVisited.1 = true
      ∧ ((c.accept cs).readVisited.2.readVisited).1 = false) :=
  ⟨⟨IceTransportMonitor.accept_visited m s, rfl⟩,
   ⟨IceCandidateMonitor.accept_visited_ic c cs, rfl⟩⟩

lemma storeContains_of_lookup (st : Store) (k : String) (m : IceTransportMonitor)
    (h : storeLookup st k = some m) : storeContains st k = true := by
  unfold storeLookup at h
  rcases Option.map_eq_some'.mp h with ⟨e, he, hev⟩
  have hp : ((fun (x : String × IceTransportMonitor) => x.1 == k) e) = true :=
    List.find?_some (p := fun x : String × IceTransportMonitor => x.1 == k) he
  exact List.any_eq_true.mpr ⟨e, List.mem_of_find?_eq_some he, hp⟩

lemma storeLookup_mapUpdate (st : Store) (s : IceTransportStats) :
    storeLookup (st.map (storeUpdateEntry s)) s.id
      = (storeLookup st s.id).map (fun mm => mm.accept s) := by
  induction st with
  | nil => rfl
  | cons e rest ih =>
    unfold storeLookup at ih ⊢
    rw [List.map_cons]
    by_cases he : (e.1 == s.id) = true
    · have hhead : storeUpdateEntry s e = (e.1, e.2.accept s) := by
        unfold storeUpdateEntry
        rw [if_pos he]
      have h1 : ((fun (x : String × IceTransportMonitor) => x.1 == s.id)
          (e.1, e.2.accept s)) = true := he
      have h2 : ((fun (x : String × IceTransportMonitor) => x.1 == s.id) e) = true := he
      rw [hhead, List.find?_cons_of_pos (List.map (storeUpdateEntry s) rest) h1,
        List.find?_cons_of_pos rest h2]
      simp
    · have hhead : storeUpdateEntry s e = e := by
        unfold storeUpdateEntry
        rw [if_neg he]
      have h2 : ¬((fun (x : String × IceTransportMonitor) => x.1 == s.id) e) = true := he
      rw [hhead, List.find?_cons_of_neg (List.map (storeUpdateEntry s) rest) h2,
        List.find?_cons_of_neg rest h2]
      exact ih

lemma storeCount_mapUpdate (st : Store) (s : IceTransportStats) :
    storeCount (st.map (storeUpdateEntry s)) s.id = storeCount st s.id := by
  induction st with
  | nil => rfl
  | cons e rest ih =>
    unfold storeCount at ih ⊢
    rw [List.map_cons]
    by_cases he : (e.1 == s.id) = true
    · have hhead : storeUpdateEntry s e = (e.1, e.2.accept s) := by
        unfold storeUpdateEntry
        rw [if_pos he]
      rw [hhead]
      simp only [List.filter_cons]
      simp [he, ih]
    · have hhead : storeUpdateEntry s e = e := by
        unfold storeUpdateEntry
        rw [if_neg he]
      rw [hhead]
      simp only [List.filter_cons]
      simp [he, ih]

/-- C5 counterexample: after ingesting bytesSent 100 at t=0 and 200 at
t=1000 (deltaBytesSent = 100), re-ingesting the identical record
(timestamp 1000, bytesSent 200) leaves deltaBytesSent at 100 — a
non-zero delta value after the repeated ingestion, not a zero delta. -/
theorem C5_counterexample :
    (((IceTransportMonitor.create
          { IceTransportStats.base with bytesSent := some 100 }).accept
        { IceTransportStats.base with timestamp := 1000, bytesSent := some 200 }).accept
      { IceTransportStats.base with timestamp := 1000, bytesSent := some 200 }).deltaBytesSent
      = some 100
    ∧ ((100 : ℚ) ≠ 0) := by
  refine ⟨?_, by norm_num⟩
  norm_num [IceTransportMonitor.accept, IceTransportMonitor.create,
    IceTransportStats.base, truthy]

/-- C5 (amended): re-ingesting a record with timestamp and values
identical to the stored state updates in place: the spec-modelled store
still holds exactly one entry for that id, and that entry is unchanged
except for the visited flag — in particular no new deltas are computed,
and a previously computed (possibly non-zero) delta persists unchanged
rather than becoming zero. -/
theorem C5_reingest_in_place (st : Store) (s : IceTransportStats)
    (m : IceTransportMonitor)
    (hlk : storeLookup st s.id = some m)
    (hone : storeCount st s.id = 1)
    (hts : m.timestamp = s.timestamp) :
    storeCount (storeIngest st s) s.id = 1
    ∧ storeLookup (storeIngest st s) s.id = some { m with _visited := true } := by
  have hc := storeContains_of_lookup st s.id m hlk
  unfold storeIngest
  rw [if_pos hc]
  refine ⟨?_, ?_⟩
  · rw [storeCount_mapUpdate st s]
    exact hone
  · rw [storeLookup_mapUpdate st s, hlk, Option.map_some']
    congr 1
    apply IceTransportMonitor.accept_nonpos
    rw [hts, sub_self]

/-- C5 witness: a one-entry store re-ingesting the identical base
record keeps exactly one entry, updated in place. -/
theorem C5_witness :
    (storeLookup [(IceTransportStats.base.id,
        IceTransportMonitor.create IceTransportStats.base)] IceTransportStats.base.id
      = some (IceTransportMonitor.create IceTransportStats.base))
    ∧ storeCount (storeIngest
        [(IceTransportStats.base.id, IceTransportMonitor.create IceTransportStats.base)]
        IceTransportStats.base) IceTransportStats.base.id = 1
    ∧ storeLookup (storeIngest
        [(IceTransportStats.base.id, IceTransportMonitor.create IceTransportStats.base)]
        IceTransportStats.base) IceTransportStats.base.id
      = some { IceTransportMonitor.create IceTransportStats.base with _visited := true } := by
  have h := C5_reingest_in_place
    [(IceTransportStats.base.id, IceTransportMonitor.create IceTransportStats.base)]
    IceTransportStats.base
    (IceTransportMonitor.create IceTransportStats.base)
    (by simp [storeLookup, IceTransportStats.base])
    (by simp [storeCount, IceTransportStats.base])
    (by simp [IceTransportMonitor.create])
  exact ⟨by simp [storeLookup, IceTransportStats.base], h.1, h.2⟩

/-- C6: with an audio inbound rtp entry, the detector enabled and the
alert currently off, update turns the desync alert on iff the interval
is not skipped (corrected-samples delta at least 1 and at least 1
received audio sample) and the fractional correction strictly exceeds
the on-threshold; moreover a corrected delta of 50 against 450 received
samples (fraction exactly 0.10) does not exceed an on-threshold of 0.1
and leaves the alert off, while a corrected delta of 60 (fraction
60/510) exceeds it and turns the alert on. -/
theorem C6_desync_on_condition (cfg : AudioDesyncConfig) (st : AudioDesyncState)
    (rtp : InboundRtpAudioView) (now : ℚ)
    (hk : rtp.kind = "audio") (hd : cfg.disabled = false) (hw : rtp.desync = false) :
    ((AudioDesyncDetector.update cfg st rtp now).rtp.desync = true
      ↔ (1 ≤ rtp.insertedSamplesForDeceleration.getD 0
            + rtp.removedSamplesForAcceleration.getD 0 - st.prevCorrectedSamples
        ∧ 1 ≤ rtp.receivingAudioSamples.getD 0
        ∧ cfg.fractionalCorrectionAlertOnThreshold
            < (rtp.insertedSamplesForDeceleration.getD 0
                + rtp.removedSamplesForAcceleration.getD 0 - st.prevCorrectedSamples)
              / ((rtp.insertedSamplesForDeceleration.getD 0
                  + rtp.removedSamplesForAcceleration.getD 0 - st.prevCorrectedSamples)
                + rtp.receivingAudioSamples.getD 0)))
    ∧ (AudioDesyncDetector.update ⟨false, 1/10, 1/20⟩ ⟨none, 0⟩
        ⟨"audio", some 50, some 0, some 450, false⟩ 0).rtp.desync = false
    ∧ (AudioDesyncDetector.update ⟨false, 1/10, 1/20⟩ ⟨none, 0⟩
        ⟨"audio", some 60, some 0, some 450, false⟩ 0).rtp.desync = true := by
  refine ⟨?_, ?_, ?_⟩
  · unfold AudioDesyncDetector.update
    rw [hk, hd]
    simp only [bne_self_eq_false, Bool.false_eq_true, if_false, hw]
    by_cases hskip : rtp.insertedSamplesForDeceleration.getD 0
        + rtp.removedSamplesForAcceleration.getD 0 - st.prevCorrectedSamples < 1
      ∨ rtp.receivingAudioSamples.getD 0 < 1
    · rw [if_pos hskip]
      simp only [hw]
      constructor
      · intro hfalse
        exact absurd hfalse (by norm_num)
      · rintro ⟨h1, h2, _⟩
        rcases hskip with h | h
        · exact absurd h1 (not_le.mpr h)
        · exact absurd h2 (not_le.mpr h)
    · rw [if_neg hskip]
      push_neg at hskip
      by_cases hlt : cfg.fractionalCorrectionAlertOnThreshold
          < (rtp.insertedSamplesForDeceleration.getD 0
              + rtp.removedSamplesForAcceleration.getD 0 - st.prevCorrectedSamples)
            / ((rtp.insertedSamplesForDeceleration.getD 0
                + rtp.removedSamplesForAcceleration.getD 0 - st.prevCorrectedSamples)
              + rtp.receivingAudioSamples.getD 0)
      · rw [if_pos hlt]
        simp only [true_iff]
        exact ⟨hskip.1, hskip.2, hlt⟩
      · rw [if_neg hlt]
        simp only [Bool.false_eq_true, false_iff]
        rintro ⟨_, _, h⟩
        exact hlt h
  · norm_num [AudioDesyncDetector.update]
  · norm_num [AudioDesyncDetector.update]

/-- C6 witness: the general condition instantiated at the concrete
60-of-510 interval with on-threshold 0.1 turns the alert on. -/
theorem C6_witness :
    (AudioDesyncDetector.update ⟨false, 1/10, 1/20⟩ ⟨none, 0⟩
      ⟨"audio", some 60, some 0, some 450, false⟩ 0).rtp.desync = true := by
  have h := C6_desync_on_condition ⟨false, 1/10, 1/20⟩ ⟨none, 0⟩
    ⟨"audio", some 60, some 0, some 450, false⟩ 0 rfl rfl rfl
  rw [h.1]
  norm_num

namespace AudioDesyncDetector

lemma update_prev (cfg : AudioDesyncConfig) (st : AudioDesyncState)
    (rtp : InboundRtpAudioView) (now : ℚ) :
    (update cfg st rtp now).state.prevCorrectedSamples = st.prevCorrectedSamples := by
  unfold update
  repeat' split
  all_goals rfl

lemma observe_keepsOn (cfg : AudioDesyncConfig) (st : AudioDesyncState) (o : Observation)
    (h : keepsOn cfg st.prevCorrectedSamples o) :
    (observe cfg st true o).rtp.desync = true := by
  unfold observe update
  simp only [bne_self_eq_false, Bool.false_eq_true, if_false]
  by_cases hdis : cfg.disabled
  · simp [hdis]
  · simp only [hdis, if_false]
    by_cases hskip : o.insertedSamplesForDeceleration.getD 0
        + o.removedSamplesForAcceleration.getD 0 - st.prevCorrectedSamples < 1
      ∨ o.receivingAudioSamples.getD 0 < 1
    · simp [hskip]
    · have hfrac : cfg.fractionalCorrectionAlertOffThreshold
          < (o.insertedSamplesForDeceleration.getD 0
              + o.removedSamplesForAcceleration.getD 0 - st.prevCorrectedSamples)
            / ((o.insertedSamplesForDeceleration.getD 0
                + o.removedSamplesForAcceleration.getD 0 - st.prevCorrectedSamples)
              + o.receivingAudioSamples.getD 0) := by
        rcases h with h | h | h
        · exact absurd (Or.inl h) hskip
        · exact absurd (Or.inr h) hskip
        · exact h
      simp [hskip, hfrac]

lemma observeList_keepsOn (cfg : AudioDesyncConfig) (l : List Observation) :
    ∀ st : AudioDesyncState, (∀ o ∈ l, keepsOn cfg st.prevCorrectedSamples o) →
      (observeList cfg st true l).2 = true := by
  induction l with
  | nil =>
    intro st _
    rfl
  | cons o rest ih =>
    intro st hall
    have h1 := observe_keepsOn cfg st o (hall o (List.mem_cons_self o rest))
    have h2 := update_prev cfg st
      { kind := "audio"
        insertedSamplesForDeceleration := o.insertedSamplesForDeceleration
        removedSamplesForAcceleration := o.removedSamplesForAcceleration
        receivingAudioSamples := o.receivingAudioSamples
        desync := true } o.now
    simp only [observeList]
    rw [h1]
    apply ih
    intro o2 ho2
    have : (observe cfg st true o).state.prevCorrectedSamples = st.prevCorrectedSamples := h2
    rw [this]
    exact hall o2 (List.mem_cons_of_mem o ho2)

end AudioDesyncDetector

/-- C7 counterexample: with off-threshold 0.1, a desynced track whose
fraction is exactly 0.1 (50 corrected against 450 received) is turned
OFF by the update although the fraction is not strictly below the
off-threshold, so the state can return to off without crossing it. -/
theorem C7_counterexample :
    (AudioDesyncDetector.update ⟨false, 2/10, 1/10⟩ ⟨some 0, 0⟩
      ⟨"audio", some 50, some 0, some 450, true⟩ 1000).rtp.desync = false
    ∧ ¬((50 : ℚ) / (50 + 450) < 1 / 10) := by
  refine ⟨?_, by norm_num⟩
  norm_num [AudioDesyncDetector.update]

/-- C7 (amended): once the desync state of a track is on, it stays on
under every sequence of updates in which each interval is either skipped
(corrected delta below 1 or received samples below 1) or has a
fractional correction strictly above the off-threshold.  The state
returns to off only through an interval whose fraction fails to
strictly exceed the off-threshold, i.e. fraction ≤ off-threshold
(equality included), not only fraction < off-threshold; merely falling
below the on-threshold while strictly above the off-threshold leaves
the state on. -/
theorem C7_hysteresis_stays_on (cfg : AudioDesyncConfig) (st : AudioDesyncState)
    (l : List AudioDesyncDetector.Observation)
    (h : ∀ o ∈ l, AudioDesyncDetector.keepsOn cfg st.prevCorrectedSamples o) :
    (AudioDesyncDetector.observeList cfg st true l).2 = true :=
  AudioDesyncDetector.observeList_keepsOn cfg l st h

/-- C7 witness: with on-threshold 0.2 and off-threshold 0.1, an
interval with fraction 0.15 — below the on-threshold yet above the
off-threshold — leaves the alert on. -/
theorem C7_witness :
    (∀ o ∈ [(⟨some 30, some 0, some 170, 0⟩ : AudioDesyncDetector.Observation)],
      AudioDesyncDetector.keepsOn ⟨false, 2/10, 1/10⟩
        (⟨some 0, 0⟩ : AudioDesyncState).prevCorrectedSamples o)
    ∧ (AudioDesyncDetector.observeList ⟨false, 2/10, 1/10⟩ ⟨some 0, 0⟩ true
        [⟨some 30, some 0, some 170, 0⟩]).2 = true := by
  have hk : ∀ o ∈ [(⟨some 30, some 0, some 170, 0⟩ : AudioDesyncDetector.Observation)],
      AudioDesyncDetector.keepsOn ⟨false, 2/10, 1/10⟩
        (⟨some 0, 0⟩ : AudioDesyncState).prevCorrectedSamples o := by
    intro o ho
    rcases List.mem_singleton.mp ho with rfl
    right
    right
    norm_num
  exact ⟨hk, C7_hysteresis_stays_on ⟨false, 2/10, 1/10⟩ ⟨some 0, 0⟩
    [⟨some 30, some 0, some 170, 0⟩] hk⟩

lemma cmContains_of_lookup (st : CongestionStateMap) (k : String)
    (m : PeerConnectionState) (h : cmLookup st k = some m) : cmContains st k = true := by
  unfold cmLookup at h
  rcases Option.map_eq_some'.mp h with ⟨e, he, hev⟩
  have hp : ((fun (x : String × PeerConnectionState) => x.1 == k) e) = true :=
    List.find?_some (p := fun x : String × PeerConnectionState => x.1 == k) he
  exact List.any_eq_true.mpr ⟨e, List.mem_of_find?_eq_some he, hp⟩

lemma cmLookup_cmSet_ne (st : CongestionStateMap) (k k2 : String) (v : PeerConnectionState)
    (h : k2 ≠ k) : cmLookup (cmSet st k v) k2 = cmLookup st k2 := by
  induction st with
  | nil => rfl
  | cons e rest ih =>
    unfold cmLookup at ih ⊢
    unfold cmSet at ih ⊢
    rw [List.map_cons]
    by_cases he : (e.1 == k) = true
    · have hk : e.1 = k := by simpa using he
      have hp : ¬((fun (x : String × PeerConnectionState) => x.1 == k2) (e.1, v)) = true := by
        simp [hk, Ne.symm h]
      have hp2 : ¬((fun (x : String × PeerConnectionState) => x.1 == k2) e) = true := by
        simp [hk, Ne.symm h]
      rw [if_pos he, List.find?_cons_of_neg (p := fun x : String × PeerConnectionState => x.1 == k2) _ hp, List.find?_cons_of_neg (p := fun x : String × PeerConnectionState => x.1 == k2) _ hp2]
      exact ih
    · rw [if_neg he]
      by_cases hp : ((fun (x : String × PeerConnectionState) => x.1 == k2) e) = true
      · rw [List.find?_cons_of_pos (p := fun x : String × PeerConnectionState => x.1 == k2) _ hp, List.find?_cons_of_pos (p := fun x : String × PeerConnectionState => x.1 == k2) _ hp]
      · rw [List.find?_cons_of_neg (p := fun x : String × PeerConnectionState => x.1 == k2) _ hp, List.find?_cons_of_neg (p := fun x : String × PeerConnectionState => x.1 == k2) _ hp]
        exact ih

lemma cmLookup_cmSet_self (st : CongestionStateMap) (k : String)
    (v m : PeerConnectionState) (h : cmLookup st k = some m) :
    cmLookup (cmSet st k v) k = some v := by
  induction st with
  | nil => simp [cmLookup] at h
  | cons e rest ih =>
    unfold cmLookup at h ih ⊢
    unfold cmSet at ih ⊢
    rw [List.map_cons]
    by_cases he : (e.1 == k) = true
    · have hp : ((fun (x : String × PeerConnectionState) => x.1 == k) (e.1, v)) = true := he
      rw [if_pos he, List.find?_cons_of_pos (p := fun x : String × PeerConnectionState => x.1 == k) _ hp]
      rfl
    · have hp : ¬((fun (x : String × PeerConnectionState) => x.1 == k) e) = true := he
      rw [List.find?_cons_of_neg (p := fun x : String × PeerConnectionState => x.1 == k) _ hp] at h
      rw [if_neg he, List.find?_cons_of_neg (p := fun x : String × PeerConnectionState => x.1 == k) _ hp]
      exact ih h

lemma cmLookup_append_ne (st : CongestionStateMap) (k k2 : String)
    (v : PeerConnectionState) (h : k2 ≠ k) :
    cmLookup (st ++ [(k, v)]) k2 = cmLookup st k2 := by
  induction st with
  | nil =>
    unfold cmLookup
    have hp : ¬((fun (x : String × PeerConnectionState) => x.1 == k2) (k, v)) = true := by
      simp [Ne.symm h]
    simp only [List.nil_append]
    rw [List.find?_cons_of_neg (p := fun x : String × PeerConnectionState => x.1 == k2) _ hp]
  | cons e rest ih =>
    unfold cmLookup at ih ⊢
    simp only [List.cons_append]
    by_cases hp : ((fun (x : String × PeerConnectionState) => x.1 == k2) e) = true
    · rw [List.find?_cons_of_pos (p := fun x : String × PeerConnectionState => x.1 == k2) _ hp, List.find?_cons_of_pos (p := fun x : String × PeerConnectionState => x.1 == k2) _ hp]
    · rw [List.find?_cons_of_neg (p := fun x : String × PeerConnectionState => x.1 == k2) _ hp, List.find?_cons_of_neg (p := fun x : String × PeerConnectionState => x.1 == k2) _ hp]
      exact ih

lemma cmLookup_filter_of_contains (st : CongestionStateMap) (vis : List String)
    (k : String) (hk : vis.contains k = true) :
    cmLookup (st.filter (fun e => vis.contains e.1)) k = cmLookup st k := by
  induction st with
  | nil => rfl
  | cons e rest ih =>
    unfold cmLookup at ih ⊢
    by_cases hp : ((fun (x : String × PeerConnectionState) => x.1 == k) e) = true
    · have hk2 : e.1 = k := by simpa using hp
      have hkeep : ((fun (x : String × PeerConnectionState) => vis.contains x.1) e) = true := by
        simpa [hk2] using hk
      rw [List.filter_cons_of_pos (p := fun x : String × PeerConnectionState => vis.contains x.1) hkeep, List.find?_cons_of_pos (p := fun x : String × PeerConnectionState => x.1 == k) _ hp,
        List.find?_cons_of_pos (p := fun x : String × PeerConnectionState => x.1 == k) _ hp]
    · by_cases hkeep : ((fun (x : String × PeerConnectionState) => vis.contains x.1) e) = true
      · rw [List.filter_cons_of_pos (p := fun x : String × PeerConnectionState => vis.contains x.1) hkeep, List.find?_cons_of_neg (p := fun x : String × PeerConnectionState => x.1 == k) _ hp,
          List.find?_cons_of_neg (p := fun x : String × PeerConnectionState => x.1 == k) _ hp]
        exact ih
      · rw [List.filter_cons_of_neg (p := fun x : String × PeerConnectionState => vis.contains x.1) hkeep, List.find?_cons_of_neg (p := fun x : String × PeerConnectionState => x.1 == k) _ hp]
        exact ih

namespace CongestionDetector

lemma updatePc_lookup_ne (st : CongestionStateMap) (pc : PeerConnectionView) (k : String)
    (h : pc.peerConnectionId ≠ k) :
    cmLookup (updatePc st pc).1 k = cmLookup st k := by
  simp only [updatePc]
  rw [cmLookup_cmSet_ne _ _ _ _ (Ne.symm h)]
  by_cases hc : cmContains st pc.peerConnectionId = true
  · rw [if_pos hc]
  · rw [if_neg hc, cmLookup_append_ne _ _ _ _ (Ne.symm h)]

lemma updatePc_events_count (st : CongestionStateMap) (pc : PeerConnectionView) :
    (updatePc st pc).2.1.count CongestionEvent.congestion = 0 := by
  simp only [updatePc]
  split
  · decide
  · split
    · decide
    · decide

lemma updatePc_target (st : CongestionStateMap) (pc : PeerConnectionView)
    (st0 : PeerConnectionState)
    (hlk : cmLookup st pc.peerConnectionId = some st0)
    (hnc : st0.congested = false)
    (hbw : pc.outboundQualityLimitationReasons.any (fun r => r == "bandwidth") = true) :
    updatePc st pc
      = (cmSet st pc.peerConnectionId (targetCongestedState pc st0),
         [CongestionEvent.alertOn], true) := by
  have hcont : cmContains st pc.peerConnectionId = true := cmContains_of_lookup st _ st0 hlk
  simp only [updatePc, targetCongestedState, hlk, Option.getD_some, hcont, if_true, hnc, hbw]
  simp

lemma updateLoop_count (l : List PeerConnectionView) :
    ∀ st evs got visited,
      ((updateLoop st evs got visited l).2.1.count CongestionEvent.congestion)
        = evs.count CongestionEvent.congestion := by
  induction l with
  | nil =>
    intro st evs got visited
    rfl
  | cons pc rest ih =>
    intro st evs got visited
    simp only [updateLoop]
    rw [ih]
    rw [List.count_append]
    have h := updatePc_events_count st pc
    omega

lemma updateLoop_got_mono (l : List PeerConnectionView) :
    ∀ st evs visited, (updateLoop st evs true visited l).2.2.1 = true := by
  induction l with
  | nil =>
    intro st evs visited
    rfl
  | cons pc rest ih =>
    intro st evs visited
    simp only [updateLoop, Bool.true_or]
    exact ih _ _ _

lemma updateLoop_lookup_ne (l : List PeerConnectionView) :
    ∀ st evs got visited (k : String), (∀ pc ∈ l, pc.peerConnectionId ≠ k) →
      cmLookup (updateLoop st evs got visited l).1 k = cmLookup st k := by
  induction l with
  | nil =>
    intro st evs got visited k _
    rfl
  | cons pc rest ih =>
    intro st evs got visited k hall
    simp only [updateLoop]
    rw [ih _ _ _ _ k (fun pc2 h2 => hall pc2 (List.mem_cons_of_mem _ h2)),
      updatePc_lookup_ne st pc k (hall pc (List.mem_cons_self pc rest))]

lemma updateLoop_visited (l : List PeerConnectionView) :
    ∀ st evs got visited,
      (updateLoop st evs got visited l).2.2.2
        = visited ++ l.map (fun pc => pc.peerConnectionId) := by
  induction l with
  | nil =>
    intro st evs got visited
    simp [updateLoop]
  | cons pc rest ih =>
    intro st evs got visited
    simp only [updateLoop, List.map_cons]
    rw [ih]
    simp

lemma updateLoop_main (l : List PeerConnectionView) :
    ∀ st evs got visited (pc : PeerConnectionView) (st0 : PeerConnectionState),
      pc ∈ l →
      (l.map (fun q => q.peerConnectionId)).Nodup →
      cmLookup st pc.peerConnectionId = some st0 →
      st0.congested = false →
      pc.outboundQualityLimitationReasons.any (fun r => r == "bandwidth") = true →
      (updateLoop st evs got visited l).2.2.1 = true
      ∧ cmLookup (updateLoop st evs got visited l).1 pc.peerConnectionId
        = some (targetCongestedState pc st0) := by
  induction l with
  | nil =>
    intro st evs got visited pc st0 hmem
    exact absurd hmem (List.not_mem_nil pc)
  | cons q rest ih =>
    intro st evs got visited pc st0 hmem hnd hlk hnc hbw
    rcases List.mem_cons.mp hmem with rfl | hmem2
    · simp only [updateLoop, updatePc_target st pc st0 hlk hnc hbw, Bool.or_true]
      have hne : ∀ pc2 ∈ rest, pc2.peerConnectionId ≠ pc.peerConnectionId := by
        intro pc2 h2 hcon
        have : pc.peerConnectionId ∈ rest.map (fun q => q.peerConnectionId) :=
          List.mem_map.mpr ⟨pc2, h2, hcon⟩
        exact (List.nodup_cons.mp hnd).1 this
      constructor
      · exact updateLoop_got_mono rest _ _ _
      · rw [updateLoop_lookup_ne rest _ _ _ _ _ hne]
        exact cmLookup_cmSet_self st _ _ st0 hlk
    · have hqne : q.peerConnectionId ≠ pc.peerConnectionId := by
        intro hcon
        have : pc.peerConnectionId ∈ rest.map (fun q2 => q2.peerConnectionId) :=
          List.mem_map.mpr ⟨pc, hmem2, rfl⟩
        rw [← hcon] at this
        exact (List.nodup_cons.mp hnd).1 this
      simp only [updateLoop]
      exact ih _ _ _ _ pc st0 hmem2 (List.nodup_cons.mp hnd).2
        (by rw [updatePc_lookup_ne st q pc.peerConnectionId hqne]; exact hlk) hnc hbw

end CongestionDetector

/-- C8: for a peer connection whose tracked state was not congested and
which now has an outbound rtp with qualityLimitationReason bandwidth,
one CongestionDetector.update over any entry list containing it (with
distinct connection ids) emits the congestion event exactly once, and
the after-congestion bitrates of that connection state are the
availableIncomingBitrate / availableOutgoingBitrate of the transport
selected ice candidate pair or, absent that, of a nominated pair — the
pair picked by selectCandidatePair. -/
theorem C8_congestion_once (states : CongestionStateMap) (pcs : List PeerConnectionView)
    (pc : PeerConnectionView) (st0 : PeerConnectionState) (pair : CandidatePairView)
    (inB outB : ℚ)
    (hnd : (pcs.map (fun q => q.peerConnectionId)).Nodup)
    (hmem : pc ∈ pcs)
    (hlk : cmLookup states pc.peerConnectionId = some st0)
    (hnc : st0.congested = false)
    (hbw : pc.outboundQualityLimitationReasons.any (fun r => r == "bandwidth") = true)
    (hpair : CongestionDetector.selectCandidatePair pc = some pair)
    (hin : pair.availableIncomingBitrate = some inB)
    (hout : pair.availableOutgoingBitrate = some outB) :
    ((CongestionDetector.update states pcs).2.count CongestionEvent.congestion = 1)
    ∧ cmLookup (CongestionDetector.update states pcs).1 pc.peerConnectionId
      = some { st0 with
          incomingBitrateAfterCongestion := some inB
          outgoingBitrateAfterCongestion := some outB
          congested := true } := by
  have hmain := CongestionDetector.updateLoop_main pcs states [] false [] pc st0
    hmem hnd hlk hnc hbw
  have htgt : CongestionDetector.targetCongestedState pc st0
      = { st0 with
          incomingBitrateAfterCongestion := some inB
          outgoingBitrateAfterCongestion := some outB
          congested := true } := by
    unfold CongestionDetector.targetCongestedState
    rw [hpair]
    simp [jsCoalesce, hin, hout]
  constructor
  · simp only [CongestionDetector.update, hmain.1, if_true]
    rw [List.count_append, CongestionDetector.updateLoop_count pcs states [] false []]
    decide
  · simp only [CongestionDetector.update]
    have hvis : ((CongestionDetector.updateLoop states [] false [] pcs).2.2.2).contains
        pc.peerConnectionId = true := by
      rw [CongestionDetector.updateLoop_visited pcs states [] false []]
      simp only [List.nil_append]
      exact List.elem_eq_true_of_mem (List.mem_map.mpr ⟨pc, hmem, rfl⟩)
    rw [cmLookup_filter_of_contains _ _ _ hvis, hmain.2, htgt]

/-- C8 witness: a single peer connection, previously tracked as not
congested, reporting one bandwidth-limited outbound rtp and a selected
candidate pair with available bitrates 1000 and 2000. -/
theorem C8_witness :
    ((⟨"pc1", ["bandwidth"],
        [some ⟨true, some 1000, some 2000⟩], []⟩ :
        PeerConnectionView).outboundQualityLimitationReasons.any
          (fun r => r == "bandwidth") = true)
    ∧ (CongestionDetector.update
        [("pc1", ⟨"pc1", false, none, none, none, none⟩)]
        [⟨"pc1", ["bandwidth"], [some ⟨true, some 1000, some 2000⟩], []⟩]).2.count
        CongestionEvent.congestion = 1
    ∧ cmLookup (CongestionDetector.update
        [("pc1", ⟨"pc1", false, none, none, none, none⟩)]
        [⟨"pc1", ["bandwidth"], [some ⟨true, some 1000, some 2000⟩], []⟩]).1 "pc1"
      = some ⟨"pc1", true, none, some 2000, none, some 1000⟩ := by
  have h := C8_congestion_once
    [("pc1", ⟨"pc1", false, none, none, none, none⟩)]
    [⟨"pc1", ["bandwidth"], [some ⟨true, some 1000, some 2000⟩], []⟩]
    ⟨"pc1", ["bandwidth"], [some ⟨true, some 1000, some 2000⟩], []⟩
    ⟨"pc1", false, none, none, none, none⟩
    ⟨true, some 1000, some 2000⟩ 1000 2000
    (by simp) (by simp) rfl rfl rfl rfl rfl rfl
  exact ⟨rfl, h.1, h.2⟩

namespace LongPcConnectionEstablishmentDetector

lemma update_on_not_connected (cfg : LongPcConfig) (pc : PcConnectionView)
    (h : pc.connectionState ≠ "connected") :
    update cfg true pc = (true, false) := by
  unfold update
  by_cases hd : cfg.disabled = true
  · rw [if_pos hd]
  · rw [if_neg hd]
    have hbe : (pc.connectionState == "connected") = false := by
      simpa using h
    simp [hbe]

lemma updateSeq_on_not_connected (cfg : LongPcConfig) (l : List PcConnectionView)
    (h : ∀ pc ∈ l, pc.connectionState ≠ "connected") :
    updateSeq cfg true l = (true, false) := by
  induction l with
  | nil => rfl
  | cons pc rest ih =>
    simp only [updateSeq]
    rw [update_on_not_connected cfg pc (h pc (List.mem_cons_self pc rest))]
    rw [ih (fun pc2 hm => h pc2 (List.mem_cons_of_mem pc hm))]
    rfl

end LongPcConnectionEstablishmentDetector

/-- C9: the long-connection-establishment detector fires at most once
per connecting episode.  First, with the detector enabled, not yet
evented, the connection in state connecting since time t, and the
elapsed wall-clock duration at least the threshold, update emits the
event and latches the evented flag.  Second, once the evented flag is
latched, no update emits again as long as the connection state never
reaches connected, for every sequence of updates.  Third, an update
that observes state connected (with the connecting start time cleared)
resets the evented flag, re-arming the detector for the next episode. -/
theorem C9_fires_once_per_episode (cfg : LongPcConfig) :
    (∀ (pc : PcConnectionView) (t : ℚ), cfg.disabled = false →
      pc.connectionState = "connecting" → pc.connectingStartedAt = some t →
      cfg.thresholdInMs ≤ pc.now - t →
      LongPcConnectionEstablishmentDetector.update cfg false pc = (true, true))
    ∧ (∀ l : List PcConnectionView, (∀ pc ∈ l, pc.connectionState ≠ "connected") →
      LongPcConnectionEstablishmentDetector.updateSeq cfg true l = (true, false))
    ∧ (∀ pc : PcConnectionView, cfg.disabled = false →
      pc.connectionState = "connected" → pc.connectingStartedAt = none →
      LongPcConnectionEstablishmentDetector.update cfg true pc = (false, false)) := by
  refine ⟨?_, ?_, ?_⟩
  · intro pc t hd hs ht hth
    unfold LongPcConnectionEstablishmentDetector.update
    rw [if_neg (by rw [hd]; exact Bool.false_ne_true)]
    simp [hs, ht, not_lt.mpr hth]
  · intro l hall
    exact LongPcConnectionEstablishmentDetector.updateSeq_on_not_connected cfg l hall
  · intro pc hd hs hcs
    unfold LongPcConnectionEstablishmentDetector.update
    rw [if_neg (by rw [hd]; exact Bool.false_ne_true)]
    simp [hs, hcs]

/-- C9 witness: threshold 5000 ms — the detector fires when the
connecting episode reaches 5000 ms, then stays silent through further
non-connected updates, and an update in state connected re-arms it. -/
theorem C9_witness :
    LongPcConnectionEstablishmentDetector.update ⟨false, 5000⟩ false
      ⟨"connecting", some 0, 5000⟩ = (true, true)
    ∧ LongPcConnectionEstablishmentDetector.updateSeq ⟨false, 5000⟩ true
      [⟨"connecting", some 0, 6000⟩, ⟨"failed", some 0, 99999⟩] = (true, false)
    ∧ LongPcConnectionEstablishmentDetector.update ⟨false, 5000⟩ true
      ⟨"connected", none, 7000⟩ = (false, false) := by
  have h := C9_fires_once_per_episode ⟨false, 5000⟩
  refine ⟨h.1 ⟨"connecting", some 0, 5000⟩ 0 rfl rfl rfl (by norm_num), ?_,
    h.2.2 ⟨"connected", none, 7000⟩ rfl rfl rfl⟩
  apply h.2.1
  intro pc hm
  rcases List.mem_cons.mp hm with rfl | hm2
  · decide
  · rcases List.mem_singleton.mp hm2 with rfl
    decide

end ClientObserver
